import Mathlib

/-!
Shallow embedding of the streaming-dataset loader in `src/app/train.py`
(`S3ImageNetDataset`: `discover_structure`, `__len__`, `__getitem__`,
`get_object_with_retry`, `verify_arrow_file`) and of the checkpoint
normalization in `src/app/upload_to_hf.py` (`load_model_checkpoint`,
`upload_to_huggingface`).

Machine-level details that the claims do not touch (actual S3 wire calls,
PyArrow byte parsing, PIL image decoding, torch tensors) are abstracted
into environment parameters: a shard's discovery outcome, a shard's batch
contents, and per-attempt fetch outcomes.  Control flow — loop order,
which exceptions are caught where, retry counters, sleep durations — is
translated statement by statement from the Python source.
-/

namespace S3ImageNet

/-- The first record batch of a shard, as seen by `discover_structure`
(train.py lines 127-144): `num_records = len(batch)` and, when the schema
has a `label` column, the column's values (`batch['label'].to_numpy()`). -/
structure FirstBatch where
  numRecords : Nat
  labels : Option (List Int)
  deriving Repr, DecidableEq

/-- Outcome of processing one shard inside the discovery loop
(train.py lines 111-148): either every step up to reading the first batch
succeeds (`ok`), or some step raises and the `except` at line 146 skips
the shard (`failed`). -/
inductive ShardDiscovery where
  | ok (batch : FirstBatch)
  | failed
  deriving Repr, DecidableEq

/-- A discovered `.arrow` object: its S3 key and what happens when the
discovery loop processes it. -/
structure Shard where
  key : String
  discovery : ShardDiscovery
  deriving Repr, DecidableEq

/-- State threaded through the discovery loop of train.py lines 106-148:
`file_sizes`, `cumulative_sizes` (initialized to `[0]`), `total_samples`,
and the running set `all_labels`.  The Python `set` is embedded as a
duplicate-free list; its iteration order is irrelevant because it is only
ever consumed through `sorted(...)`. -/
structure DiscoverState where
  file_sizes : List Nat
  cumulative_sizes : List Nat
  total_samples : Nat
  all_labels : List Int
  deriving Repr, DecidableEq

/-- `set.add`: insert a label unless already present. -/
def setInsert (acc : List Int) (l : Int) : List Int :=
  if l ∈ acc then acc else acc ++ [l]

/-- One iteration of the discovery loop body (train.py lines 111-148).
A `failed` shard hits the `except`/`continue` and leaves the state
unchanged; an `ok` shard updates `all_labels` (if the batch has a label
column), appends `num_records` to `file_sizes`, and appends the new
running total to `cumulative_sizes`. -/
def discoverStep (st : DiscoverState) (s : Shard) : DiscoverState :=
  match s.discovery with
  | .failed => st
  | .ok b =>
      let labels' := match b.labels with
        | none => st.all_labels
        | some ls => ls.foldl setInsert st.all_labels
      let total' := st.total_samples + b.numRecords
      { file_sizes := st.file_sizes ++ [b.numRecords]
        cumulative_sizes := st.cumulative_sizes ++ [total']
        total_samples := total'
        all_labels := labels' }

/-- The whole discovery loop, started from the initial state of
train.py lines 106-109. -/
def discoverLoop (shards : List Shard) : DiscoverState :=
  shards.foldl discoverStep
    { file_sizes := [], cumulative_sizes := [0], total_samples := 0, all_labels := [] }

/-- Errors raised by `discover_structure` after the per-shard loop
(train.py lines 150-154). -/
inductive DiscoverError where
  | noLabels      -- "No valid labels found in the dataset", line 151
  | noFiles       -- "No valid Arrow files could be processed", line 154
  deriving Repr, DecidableEq

/-- The immutable index built by a successful `discover_structure`:
`arrow_files` (all discovered keys, line 97-101 — note: NOT filtered by
per-shard success), `file_sizes`, `cumulative_sizes`, and `class_to_idx`
represented by the sorted list of distinct labels (the Python dict maps
`vocab[i] ↦ i`, line 157). -/
structure DatasetIndex where
  arrow_files : List String
  file_sizes : List Nat
  cumulative_sizes : List Nat
  vocab : List Int
  deriving Repr, DecidableEq

/-- `discover_structure` (train.py lines 87-162) given the list of
discovered `.arrow` objects and each one's per-shard outcome: run the
loop, then raise if no labels were observed (line 150) or no shard was
successfully processed (line 153); otherwise build `class_to_idx` from
`sorted(all_labels)` (line 157). -/
def discover_structure (shards : List Shard) : Except DiscoverError DatasetIndex :=
  let st := discoverLoop shards
  if st.all_labels = [] then .error .noLabels
  else if st.file_sizes = [] then .error .noFiles
  else .ok
    { arrow_files := shards.map Shard.key
      file_sizes := st.file_sizes
      cumulative_sizes := st.cumulative_sizes
      vocab := List.insertionSort (· ≤ ·) st.all_labels }

/-- `class_to_idx[label]` (train.py line 157): the dense index assigned to
a raw label, i.e. its position in the sorted distinct-label list.  `none`
models the Python dict's `KeyError` for an unseen label. -/
def class_to_idx (d : DatasetIndex) (label : Int) : Option Nat :=
  if label ∈ d.vocab then some (d.vocab.indexOf label) else none

/-- `__len__` (train.py lines 164-165): `self.cumulative_sizes[-1]`. -/
def datasetLen (d : DatasetIndex) : Nat :=
  d.cumulative_sizes.getLastD 0

/-- The shard-locator generator of `__getitem__` (train.py lines 169-170):
`next(i for i, size in enumerate(self.cumulative_sizes[1:], 1) if idx < size) - 1`.
Scanning `cumulative_sizes[1:]` with 1-based positions and subtracting 1
is scanning the dropped list with 0-based positions; `none` models the
`StopIteration` the exhausted generator raises. -/
def findFileIdxAux (idx : Nat) : List Nat → Nat → Option Nat
  | [], _ => none
  | size :: rest, i => if idx < size then some i else findFileIdxAux idx rest (i + 1)

def findFileIdx (cumulative : List Nat) (idx : Nat) : Option Nat :=
  findFileIdxAux idx (cumulative.drop 1) 0

/-! ### `get_object_with_retry` (train.py lines 63-85)

The S3 response is abstracted to an opaque `Nat`; the outcome of the
`get_object` call on attempt number `n` (0-based, as in
`for attempt in range(self.max_retries)`) is an environment function
`res : Nat → Except Unit Nat` (`.error` = `ClientError`).  The embedding
returns the overall outcome together with the list of `time.sleep`
durations performed, in order: the sleep after attempt `attempt` is
`self.retry_delay * (attempt + 1)` (line 83). -/

def getObjectRetryGo (res : Nat → Except Unit Nat) (max_retries retry_delay : Nat) :
    Nat → Nat → Except Unit Nat × List Nat
  | 0, _ => (.error (), [])     -- loop exhausted: the raise at line 85 (only when max_retries = 0)
  | remaining + 1, attempt =>
    match res attempt with
    | .ok r => (.ok r, [])
    | .error e =>
      if attempt = max_retries - 1 then (.error e, [])   -- line 80-81: re-raise on last attempt
      else
        let tail := getObjectRetryGo res max_retries retry_delay remaining (attempt + 1)
        (tail.1, retry_delay * (attempt + 1) :: tail.2)  -- line 83: sleep, then next attempt

def get_object_with_retry (res : Nat → Except Unit Nat) (max_retries retry_delay : Nat) :
    Except Unit Nat × List Nat :=
  getObjectRetryGo res max_retries retry_delay max_retries 0

/-! ### `__getitem__` (train.py lines 167-224)

The per-record environment: a record's image blob either decodes to an
opaque decoded image (`some`) or fails to decode (`none`), and carries a
raw label.  A batch has a row count (`len(batch)`) and column data; a
record index for which `recs.get? = none` models the `KeyError` /
`IndexError` of lines 194-196 (missing column or out-of-range index).
A shard's store state says whether `head_object` (verify) and
`get_object` (fetch) succeed — deterministically, the same on every
attempt — and gives the batch stream.  Only the sleeps of the OUTER
per-sample retry loop (lines 173-222) are recorded. -/

structure RecordData where
  image : Option Nat
  label : Int
  deriving Repr, DecidableEq

structure Batch where
  numRows : Nat
  recs : List RecordData
  deriving Repr, DecidableEq

structure ShardStore where
  verifyOk : Bool
  fetchOk : Bool
  batches : List Batch
  deriving Repr, DecidableEq

/-- The batch scan of train.py lines 186-215: walk the stream keeping
`current_idx`; in the batch containing `local_idx`, extract the record
(`ValueError "Invalid batch data structure"` on failure), decode the
image (`ValueError "Failed to decode image"` on failure), apply the
optional transform (`ValueError "Transform failed"` on failure), and
return `(image, label)` — the label is returned RAW (line 212).  Falling
off the stream is the `ValueError` of line 215. -/
def scanBatches (transform : Option (Nat → Option Nat)) :
    List Batch → Nat → Nat → Except String (Nat × Int)
  | [], _, _ => .error "Could not find record"
  | b :: rest, current_idx, local_idx =>
    if current_idx + b.numRows > local_idx then
      let record_idx := local_idx - current_idx
      match b.recs.get? record_idx with
      | none => .error "Invalid batch data structure"
      | some r =>
        match r.image with
        | none => .error "Failed to decode image"
        | some img =>
          match transform with
          | none => .ok (img, r.label)
          | some t =>
            match t img with
            | none => .error "Transform failed"
            | some img2 => .ok (img2, r.label)
    else scanBatches transform rest (current_idx + b.numRows) local_idx

/-- One iteration of the outer try-block of `__getitem__`
(train.py lines 174-215): index `arrow_files` (an `IndexError` here is an
exception inside the try), verify the file (line 176-177), fetch it
(line 180; a deterministic fetch failure is the `ClientError` the inner
retry re-raises after exhaustion), then scan the batches. -/
def attemptBody (arrow_files : List String) (store : String → ShardStore)
    (transform : Option (Nat → Option Nat)) (file_idx local_idx : Nat) :
    Except String (Nat × Int) :=
  match arrow_files.get? file_idx with
  | none => .error "IndexError: arrow_files"
  | some key =>
    let s := store key
    if s.verifyOk = false then .error "corrupted"
    else if s.fetchOk = false then .error "ClientError"
    else scanBatches transform s.batches 0 local_idx

/-- Result of `__getitem__`: `stopIteration` is the exhausted locator
generator (line 169), `sample msg` is the exception re-raised at line 220
after the last attempt, `exhausted` is the `RuntimeError` of line 224
(reachable only when `max_retries = 0`). -/
inductive GetItemError where
  | stopIteration
  | sample (msg : String)
  | exhausted
  deriving Repr, DecidableEq

/-- The outer retry loop of `__getitem__` (lines 173-224): the body is
deterministic, so it is passed as a value; on failure of attempt
`attempt`, re-raise if it was the last, else sleep
`retry_delay * (attempt + 1)` (line 222) and retry. -/
def getitemLoop (body : Except String (Nat × Int)) (max_retries retry_delay : Nat) :
    Nat → Nat → Except GetItemError (Nat × Int) × List Nat
  | 0, _ => (.error .exhausted, [])
  | remaining + 1, attempt =>
    match body with
    | .ok v => (.ok v, [])
    | .error msg =>
      if attempt = max_retries - 1 then (.error (.sample msg), [])
      else
        let tail := getitemLoop body max_retries retry_delay remaining (attempt + 1)
        (tail.1, retry_delay * (attempt + 1) :: tail.2)

/-- `__getitem__` (train.py lines 167-224): locate the file via the
generator over `cumulative_sizes[1:]` (StopIteration if exhausted),
compute `local_idx = idx - cumulative_sizes[file_idx]`, then run the
retry loop.  Note the locator runs BEFORE any storage access. -/
def getitem (d : DatasetIndex) (store : String → ShardStore)
    (transform : Option (Nat → Option Nat)) (max_retries retry_delay : Nat) (idx : Nat) :
    Except GetItemError (Nat × Int) × List Nat :=
  match findFileIdx d.cumulative_sizes idx with
  | none => (.error .stopIteration, [])
  | some file_idx =>
    let local_idx := idx - d.cumulative_sizes.getD file_idx 0
    getitemLoop (attemptBody d.arrow_files store transform file_idx local_idx)
      max_retries retry_delay max_retries 0

end S3ImageNet

namespace UploadHF

/-! ### `load_model_checkpoint` / `upload_to_huggingface` (upload_to_hf.py)

A loaded checkpoint is either a Python dict (an ordered association list
of string keys to values) or a non-dict object.  Values are numbers
(`num`; the defaults `0` and `0.0` are both `num 0` — their Python types
differ but nothing downstream distinguishes them) or opaque blobs
(tensors, nested state dicts). -/

inductive PVal where
  | num (n : Int)
  | blob (id : Nat)
  deriving Repr, DecidableEq

inductive Ckpt where
  | dict (entries : List (String × PVal))
  | raw (sd : Nat)
  deriving Repr, DecidableEq

def hasKey (entries : List (String × PVal)) (k : String) : Bool :=
  entries.any (fun p => p.1 == k)

def lookup (entries : List (String × PVal)) (k : String) : Option PVal :=
  (entries.find? (fun p => p.1 == k)).map Prod.snd

/-- `checkpoint[k]`: `none` models `KeyError` (or `TypeError` on a
non-dict). -/
def ckptGet (c : Ckpt) (k : String) : Option PVal :=
  match c with
  | .dict es => lookup es k
  | .raw _ => none

/-- The checkpoint-normalization result of `load_model_checkpoint`
(upload_to_hf.py lines 37-50), under the hypothesis that `torch.load`
and `model.load_state_dict` succeeded ("loads successfully").  Faithful
to the `if not isinstance(checkpoint, dict) / elif 'epoch' not in
checkpoint / elif 'best_acc' not in checkpoint` chain of lines 38-47:
for a non-dict, rebuild a full dict with the checkpoint itself as the
state dict; for a dict, the two defaults are an `elif` chain, so at most
ONE of them is applied. -/
def load_model_checkpoint (c : Ckpt) : Ckpt :=
  match c with
  | .raw sd => .dict [("model_state_dict", .blob sd), ("epoch", .num 0), ("best_acc", .num 0)]
  | .dict entries =>
    if hasKey entries "epoch" = false then .dict (entries ++ [("epoch", .num 0)])
    else if hasKey entries "best_acc" = false then .dict (entries ++ [("best_acc", .num 0)])
    else .dict entries

/-- The two reads `upload_to_huggingface` performs on the checkpoint
(upload_to_hf.py lines 65-66): `checkpoint['best_acc']` and
`checkpoint['epoch']`. -/
def uploadReads (c : Ckpt) : Option PVal × Option PVal :=
  (ckptGet c "best_acc", ckptGet c "epoch")

end UploadHF

/-- Decidable equality for `Except`, so that concrete runs of the embedded
functions can be checked by `decide`. -/
instance exceptDecEq {ε α : Type} [DecidableEq ε] [DecidableEq α] :
    DecidableEq (Except ε α) := fun x y =>
  match x, y with
  | .ok a, .ok b =>
    if h : a = b then isTrue (by rw [h]) else isFalse (fun hh => h (Except.ok.inj hh))
  | .error e, .error f =>
    if h : e = f then isTrue (by rw [h]) else isFalse (fun hh => h (Except.error.inj hh))
  | .ok _, .error _ => isFalse (fun hh => Except.noConfusion hh)
  | .error _, .ok _ => isFalse (fun hh => Except.noConfusion hh)

namespace S3ImageNet

/-! ### Concrete scenarios (used to evaluate the embedded code) -/

/-- Scenario A: shard 0 fails during discovery, shard 1 succeeds with a
first batch of 5 records labelled 0..4. -/
def shardsA : List Shard :=
  [⟨"shard0", .failed⟩, ⟨"shard1", .ok ⟨5, some [0, 1, 2, 3, 4]⟩⟩]

/-- The index scenario A's construction produces. -/
def dsA : DatasetIndex :=
  { arrow_files := ["shard0", "shard1"], file_sizes := [5],
    cumulative_sizes := [0, 5], vocab := [0, 1, 2, 3, 4] }

/-- Store for scenario A: the failed shard 0 is unreadable (its
`head_object` fails, which is why discovery skipped it), while shard 1
holds all five records. -/
def storeA : String → ShardStore := fun key =>
  if key = "shard1" then
    { verifyOk := true, fetchOk := true,
      batches := [⟨5, [⟨some 100, 0⟩, ⟨some 101, 1⟩, ⟨some 102, 2⟩,
        ⟨some 103, 3⟩, ⟨some 104, 4⟩]⟩] }
  else { verifyOk := false, fetchOk := false, batches := [] }

/-- Scenario B: a single shard with two records, raw labels 10 and 20
(observed in reverse order; the vocabulary sorts them). -/
def shardsB : List Shard := [⟨"s0", .ok ⟨2, some [20, 10]⟩⟩]

/-- The index scenario B's construction produces. -/
def dsB : DatasetIndex :=
  { arrow_files := ["s0"], file_sizes := [2], cumulative_sizes := [0, 2],
    vocab := [10, 20] }

/-- Store for scenario B: record 0 decodes to image 7 with raw label 10,
record 1 decodes to image 8 with raw label 20. -/
def storeB : String → ShardStore := fun _ =>
  { verifyOk := true, fetchOk := true,
    batches := [⟨2, [⟨some 7, 10⟩, ⟨some 8, 20⟩]⟩] }

/-- Scenario C: a single shard with one record whose image blob fails to
decode. -/
def dsC : DatasetIndex :=
  { arrow_files := ["s0"], file_sizes := [1], cumulative_sizes := [0, 1],
    vocab := [10] }

/-- Store for scenario C. -/
def storeC : String → ShardStore := fun _ =>
  { verifyOk := true, fetchOk := true, batches := [⟨1, [⟨none, 10⟩]⟩] }

/-- Malformed variant of scenario C: the batch reports one row but column
extraction fails (missing column / index out of range). -/
def storeCmal : String → ShardStore := fun _ =>
  { verifyOk := true, fetchOk := true, batches := [⟨1, []⟩] }

/-- Attempt outcomes for the C5 scenario: two `ClientError`s, then a
successful response 42 on the 3rd attempt. -/
def resTwoFailsThenOk : Nat → Except Unit Nat :=
  fun n => if n < 2 then .error () else .ok 42

/-- Attempt outcomes where every attempt fails. -/
def resAlwaysFails : Nat → Except Unit Nat := fun _ => .error ()

/-! ### Invariants of the discovery loop -/

theorem setInsert_nodup (acc : List Int) (l : Int) (h : acc.Nodup) :
    (setInsert acc l).Nodup := by
  unfold setInsert
  split
  · exact h
  · next hl =>
    refine List.nodup_append.mpr ⟨h, List.nodup_singleton l, ?_⟩
    intro a ha hb
    rw [List.mem_singleton] at hb
    exact hl (hb ▸ ha)

theorem foldl_setInsert_nodup (ls : List Int) (acc : List Int) (h : acc.Nodup) :
    (ls.foldl setInsert acc).Nodup := by
  induction ls generalizing acc with
  | nil => exact h
  | cons a as ih => exact ih _ (setInsert_nodup acc a h)

theorem discoverStep_inv (st : DiscoverState) (s : Shard)
    (h1 : st.cumulative_sizes ≠ [])
    (h2 : st.cumulative_sizes.getLastD 0 = st.total_samples)
    (h3 : List.Sorted (· ≤ ·) st.cumulative_sizes)
    (h4 : st.cumulative_sizes.length = st.file_sizes.length + 1)
    (h5 : st.all_labels.Nodup)
    (h6 : ∀ y ∈ st.cumulative_sizes, y ≤ st.total_samples) :
    let st' := discoverStep st s
    st'.cumulative_sizes ≠ [] ∧
    st'.cumulative_sizes.getLastD 0 = st'.total_samples ∧
    List.Sorted (· ≤ ·) st'.cumulative_sizes ∧
    st'.cumulative_sizes.length = st'.file_sizes.length + 1 ∧
    st'.all_labels.Nodup ∧
    (∀ y ∈ st'.cumulative_sizes, y ≤ st'.total_samples) ∧
    st'.cumulative_sizes.head? = st.cumulative_sizes.head? := by
  intro st'
  match hs : s.discovery with
  | .failed =>
    have : st' = st := by simp [st', discoverStep, hs]
    rw [this]
    exact ⟨h1, h2, h3, h4, h5, h6, rfl⟩
  | .ok b =>
    have hcs : st'.cumulative_sizes =
        st.cumulative_sizes ++ [st.total_samples + b.numRecords] := by
      simp [st', discoverStep, hs]
    have hfs : st'.file_sizes = st.file_sizes ++ [b.numRecords] := by
      simp [st', discoverStep, hs]
    have htot : st'.total_samples = st.total_samples + b.numRecords := by
      simp [st', discoverStep, hs]
    have hlab : st'.all_labels.Nodup := by
      match hb : b.labels with
      | none => simpa [st', discoverStep, hs, hb] using h5
      | some ls => simpa [st', discoverStep, hs, hb] using foldl_setInsert_nodup ls _ h5
    refine ⟨by simp [hcs], ?_, ?_, by simp [hcs, hfs, h4], hlab, ?_, ?_⟩
    · rw [hcs, htot, List.getLastD_concat]
    · rw [hcs]
      refine List.pairwise_append.mpr ⟨h3, List.sorted_singleton _, ?_⟩
      intro a ha b' hb'
      rw [List.mem_singleton] at hb'
      subst hb'
      exact Nat.le_trans (h6 a ha) (Nat.le_add_right _ _)
    · intro y hy
      rw [hcs] at hy
      rw [htot]
      rcases List.mem_append.mp hy with hy | hy
      · exact Nat.le_trans (h6 y hy) (Nat.le_add_right _ _)
      · rw [List.mem_singleton] at hy
        exact Nat.le_of_eq hy
    · rw [hcs]
      match hne : st.cumulative_sizes with
      | [] => exact absurd hne h1
      | c :: cst => rfl

theorem discoverFoldl_inv (shards : List Shard) (st : DiscoverState)
    (h1 : st.cumulative_sizes ≠ [])
    (h2 : st.cumulative_sizes.getLastD 0 = st.total_samples)
    (h3 : List.Sorted (· ≤ ·) st.cumulative_sizes)
    (h4 : st.cumulative_sizes.length = st.file_sizes.length + 1)
    (h5 : st.all_labels.Nodup)
    (h6 : ∀ y ∈ st.cumulative_sizes, y ≤ st.total_samples) :
    let st' := shards.foldl discoverStep st
    st'.cumulative_sizes ≠ [] ∧
    st'.cumulative_sizes.getLastD 0 = st'.total_samples ∧
    List.Sorted (· ≤ ·) st'.cumulative_sizes ∧
    st'.cumulative_sizes.length = st'.file_sizes.length + 1 ∧
    st'.all_labels.Nodup ∧
    (∀ y ∈ st'.cumulative_sizes, y ≤ st'.total_samples) ∧
    st'.cumulative_sizes.head? = st.cumulative_sizes.head? := by
  induction shards generalizing st with
  | nil => exact ⟨h1, h2, h3, h4, h5, h6, rfl⟩
  | cons s rest ih =>
    intro st'
    obtain ⟨g1, g2, g3, g4, g5, g6, g7⟩ := discoverStep_inv st s h1 h2 h3 h4 h5 h6
    obtain ⟨k1, k2, k3, k4, k5, k6, k7⟩ := ih (discoverStep st s) g1 g2 g3 g4 g5 g6
    exact ⟨k1, k2, k3, k4, k5, k6, k7.trans g7⟩

theorem discoverLoop_inv (shards : List Shard) :
    let st := discoverLoop shards
    st.cumulative_sizes ≠ [] ∧
    st.cumulative_sizes.getLastD 0 = st.total_samples ∧
    List.Sorted (· ≤ ·) st.cumulative_sizes ∧
    st.cumulative_sizes.length = st.file_sizes.length + 1 ∧
    st.all_labels.Nodup ∧
    (∀ y ∈ st.cumulative_sizes, y ≤ st.total_samples) ∧
    st.cumulative_sizes.head? = some 0 :=
  discoverFoldl_inv shards
    { file_sizes := [], cumulative_sizes := [0], total_samples := 0, all_labels := [] }
    (by simp) (by rfl) (List.sorted_singleton 0) (by rfl) List.nodup_nil
    (by intro y hy; rw [List.mem_singleton] at hy; exact Nat.le_of_eq hy)

theorem discover_structure_ok {shards : List Shard} {d : DatasetIndex}
    (h : discover_structure shards = .ok d) :
    d = { arrow_files := shards.map Shard.key
          file_sizes := (discoverLoop shards).file_sizes
          cumulative_sizes := (discoverLoop shards).cumulative_sizes
          vocab := List.insertionSort (· ≤ ·) (discoverLoop shards).all_labels } ∧
    (discoverLoop shards).all_labels ≠ [] ∧
    (discoverLoop shards).file_sizes ≠ [] := by
  unfold discover_structure at h
  simp only at h
  split_ifs at h with hl hf
  exact ⟨(Except.ok.inj h).symm, hl, hf⟩

theorem dataset_inv {shards : List Shard} {d : DatasetIndex}
    (h : discover_structure shards = .ok d) :
    d.cumulative_sizes ≠ [] ∧
    List.Sorted (· ≤ ·) d.cumulative_sizes ∧
    d.cumulative_sizes.head? = some 0 ∧
    d.cumulative_sizes.length = d.file_sizes.length + 1 ∧
    (∀ y ∈ d.cumulative_sizes, y ≤ datasetLen d) := by
  obtain ⟨hd, -, -⟩ := discover_structure_ok h
  obtain ⟨i1, i2, i3, i4, -, i6, i7⟩ := discoverLoop_inv shards
  subst hd
  refine ⟨i1, i3, i7, i4, ?_⟩
  intro y hy
  unfold datasetLen
  simp only
  rw [i2]
  exact i6 y hy

/-! ### The shard locator -/

theorem findFileIdxAux_none (k : Nat) (L : List Nat) (i : Nat) (h : ∀ s ∈ L, s ≤ k) :
    findFileIdxAux k L i = none := by
  induction L generalizing i with
  | nil => rfl
  | cons s rest ih =>
    unfold findFileIdxAux
    rw [if_neg (Nat.not_lt.mpr (h s (List.mem_cons_self s rest)))]
    exact ih _ (fun t ht => h t (List.mem_cons_of_mem _ ht))

theorem findFileIdxAux_some (k : Nat) (L : List Nat) (i : Nat) (h : ∃ s ∈ L, k < s) :
    ∃ p b, findFileIdxAux k L i = some (i + p) ∧ L.get? p = some b ∧ k < b ∧
      ∀ q a, q < p → L.get? q = some a → a ≤ k := by
  induction L generalizing i with
  | nil =>
    obtain ⟨s, hs, -⟩ := h
    cases hs
  | cons s rest ih =>
    by_cases hk : k < s
    · refine ⟨0, s, ?_, rfl, hk, fun q a hq _ => absurd hq (Nat.not_lt_zero q)⟩
      unfold findFileIdxAux
      rw [if_pos hk, Nat.add_zero]
    · have hrest : ∃ t ∈ rest, k < t := by
        obtain ⟨t, ht, hkt⟩ := h
        cases ht with
        | head => exact absurd hkt hk
        | tail _ h' => exact ⟨t, h', hkt⟩
      obtain ⟨p, b, hfind, hget, hkb, hprev⟩ := ih (i + 1) hrest
      refine ⟨p + 1, b, ?_, hget, hkb, ?_⟩
      · unfold findFileIdxAux
        rw [if_neg hk, hfind]
        congr 1
        omega
      · intro q a hq hgq
        match q with
        | 0 =>
          rw [List.get?_cons_zero] at hgq
          exact Nat.not_lt.mp (Option.some.inj hgq ▸ hk)
        | q' + 1 =>
          rw [List.get?_cons_succ] at hgq
          exact hprev q' a (by omega) hgq

/-- Helper: the default-valued last element of a nonempty list is a member. -/
theorem getLastD_mem : ∀ (l : List Nat), l ≠ [] → ∀ d, l.getLastD d ∈ l
  | [a], _, d => by simp [List.getLastD]
  | a :: b :: t, _, d => by
    rw [List.getLastD_cons]
    exact List.mem_cons_of_mem a (getLastD_mem (b :: t) (by simp) a)

/-- Correctness of the locator on a sorted cumulative table that starts
at 0: for `k` below the last entry it returns the unique `i` with
`cumulative[i] ≤ k < cumulative[i+1]`. -/
theorem findFileIdx_spec {cs : List Nat} {k : Nat}
    (hhead : cs.head? = some 0) (hsorted : List.Sorted (· ≤ ·) cs)
    (hk : k < cs.getLastD 0) :
    ∃ i a b, findFileIdx cs k = some i ∧ cs.get? i = some a ∧ cs.get? (i + 1) = some b ∧
      a ≤ k ∧ k < b ∧
      ∀ i' a' b', cs.get? i' = some a' → cs.get? (i' + 1) = some b' →
        a' ≤ k → k < b' → i' = i := by
  match hcs : cs with
  | [] => cases hhead
  | c0 :: tail =>
    have hc0 : c0 = 0 := by
      rw [List.head?_cons] at hhead
      exact Option.some.inj hhead
    subst hc0
    have htail_ne : tail ≠ [] := by
      intro hnil
      subst hnil
      simp [List.getLastD] at hk
    have hlast_mem : (0 :: tail).getLastD 0 ∈ tail := by
      rw [List.getLastD_cons]
      exact getLastD_mem tail htail_ne 0
    obtain ⟨p, b, hfind, hget, hkb, hprev⟩ :=
      findFileIdxAux_some k tail 0 ⟨(0 :: tail).getLastD 0, hlast_mem, hk⟩
    have hfind' : findFileIdx (0 :: tail) k = some p := by
      unfold findFileIdx
      simpa using hfind
    have hp_lt : p < tail.length := (List.get?_eq_some.mp hget).1
    have hgetp1 : (0 :: tail).get? (p + 1) = some b := by
      rw [List.get?_cons_succ]
      exact hget
    have hgetp : ∃ a, (0 :: tail).get? p = some a ∧ a ≤ k := by
      match p, hp_lt with
      | 0, _ => exact ⟨0, rfl, Nat.zero_le k⟩
      | q + 1, hq =>
        have hqlt : q < tail.length := by omega
        refine ⟨tail.get ⟨q, hqlt⟩, ?_, ?_⟩
        · rw [List.get?_cons_succ]
          exact List.get?_eq_get hqlt
        · exact hprev q _ (Nat.lt_succ_self q) (List.get?_eq_get hqlt)
    obtain ⟨a, hgeta, hak⟩ := hgetp
    refine ⟨p, a, b, hfind', hgeta, hgetp1, hak, hkb, ?_⟩
    intro i' a' b' hga' hgb' ha'k hkb'
    by_contra hne
    rcases Nat.lt_or_ge i' p with hlt | hge
    · -- i' < p: then i' + 1 ≤ p, so cs[i'+1] ≤ cs[p] = a ≤ k, contradicting k < b' = cs[i'+1]
      obtain ⟨hb'lt, hb'get⟩ := List.get?_eq_some.mp hgb'
      obtain ⟨halt, haget⟩ := List.get?_eq_some.mp hgeta
      have hle : (0 :: tail).get ⟨i' + 1, hb'lt⟩ ≤ (0 :: tail).get ⟨p, halt⟩ :=
        hsorted.rel_get_of_le (by simp [Fin.le_def]; omega)
      rw [hb'get, haget] at hle
      omega
    · -- p < i' (p ≠ i'): cs[p+1] ≤ cs[i'] = a' ≤ k, contradicting k < b = cs[p+1]
      have hplt : p < i' := by omega
      obtain ⟨hblt, hbget⟩ := List.get?_eq_some.mp hgetp1
      obtain ⟨ha'lt, ha'get⟩ := List.get?_eq_some.mp hga'
      have hle : (0 :: tail).get ⟨p + 1, hblt⟩ ≤ (0 :: tail).get ⟨i', ha'lt⟩ :=
        hsorted.rel_get_of_le (by simp [Fin.le_def]; omega)
      rw [hbget, ha'get] at hle
      omega

/-- The locator on an out-of-range index: every entry of the table is at
most the last entry, so the generator is exhausted. -/
theorem findFileIdx_none_of_ge {cs : List Nat} {k N : Nat}
    (h6 : ∀ y ∈ cs, y ≤ N) (hk : N ≤ k) :
    findFileIdx cs k = none :=
  findFileIdxAux_none k _ 0
    (fun s hs => Nat.le_trans (h6 s (List.mem_of_mem_drop hs)) hk)

/-! ### Behavior of the retry loops -/

theorem getObjectRetryGo_congr (res res2 : Nat → Except Unit Nat) (maxR delay : Nat)
    (h : ∀ k, k < maxR → res k = res2 k) :
    ∀ remaining attempt, attempt + remaining = maxR →
      getObjectRetryGo res maxR delay remaining attempt =
        getObjectRetryGo res2 maxR delay remaining attempt := by
  intro remaining
  induction remaining with
  | zero => intro attempt _; rfl
  | succ r ih =>
    intro attempt hsum
    unfold getObjectRetryGo
    rw [h attempt (by omega), ih (attempt + 1) (by omega)]

theorem getObjectRetryGo_allFail (res : Nat → Except Unit Nat) (maxR delay : Nat)
    (h : ∀ k, k < maxR → res k = .error ()) :
    ∀ remaining attempt, attempt + remaining = maxR →
      getObjectRetryGo res maxR delay remaining attempt =
        (.error (), (List.range' (attempt + 1) (remaining - 1)).map fun n => delay * n) := by
  intro remaining
  induction remaining with
  | zero => intro attempt _; rfl
  | succ r ih =>
    intro attempt hsum
    unfold getObjectRetryGo
    rw [h attempt (by omega)]
    dsimp only
    by_cases hlast : attempt = maxR - 1
    · rw [if_pos hlast]
      have hr : r = 0 := by omega
      subst hr
      rfl
    · rw [if_neg hlast]
      rw [ih (attempt + 1) (by omega)]
      have hr : 1 ≤ r := by omega
      have : List.range' (attempt + 1) (r + 1 - 1) =
          (attempt + 1) :: List.range' (attempt + 2) (r - 1) := by
        have : r + 1 - 1 = (r - 1) + 1 := by omega
        rw [this, List.range'_succ]
      rw [this, List.map_cons]

theorem getObjectRetryGo_success (res : Nat → Except Unit Nat) (maxR delay rsp : Nat) :
    ∀ remaining attempt k, attempt + remaining = maxR → attempt ≤ k → k < maxR →
      (∀ j, attempt ≤ j → j < k → res j = .error ()) → res k = .ok rsp →
      getObjectRetryGo res maxR delay remaining attempt =
        (.ok rsp, (List.range' (attempt + 1) (k - attempt)).map fun n => delay * n) := by
  intro remaining
  induction remaining with
  | zero => intro attempt k hsum hak hkm _ _; omega
  | succ r ih =>
    intro attempt k hsum hak hkm hfail hok
    unfold getObjectRetryGo
    by_cases heq : attempt = k
    · subst heq
      rw [hok, Nat.sub_self]
      rfl
    · have hlt : attempt < k := by omega
      rw [hfail attempt (Nat.le_refl _) hlt]
      dsimp only
      have hlast : attempt ≠ maxR - 1 := by omega
      rw [if_neg hlast]
      rw [ih (attempt + 1) k (by omega) (by omega) hkm
        (fun j h1 h2 => hfail j (by omega) h2) hok]
      have : List.range' (attempt + 1) (k - attempt) =
          (attempt + 1) :: List.range' (attempt + 2) (k - (attempt + 1)) := by
        have h1 : k - attempt = (k - (attempt + 1)) + 1 := by omega
        rw [h1, List.range'_succ]
      rw [this, List.map_cons]

theorem getitemLoop_error (msg : String) (maxR delay : Nat) :
    ∀ remaining attempt, attempt + remaining = maxR → 1 ≤ remaining →
      getitemLoop (.error msg) maxR delay remaining attempt =
        (.error (.sample msg), (List.range' (attempt + 1) (remaining - 1)).map fun n => delay * n) := by
  intro remaining
  induction remaining with
  | zero => intro attempt _ h1; omega
  | succ r ih =>
    intro attempt hsum _
    unfold getitemLoop
    dsimp only
    by_cases hlast : attempt = maxR - 1
    · rw [if_pos hlast]
      have hr : r = 0 := by omega
      subst hr
      rfl
    · rw [if_neg hlast]
      rw [ih (attempt + 1) (by omega) (by omega)]
      have : List.range' (attempt + 1) (r + 1 - 1) =
          (attempt + 1) :: List.range' (attempt + 2) (r - 1) := by
        have h1 : r + 1 - 1 = (r - 1) + 1 := by omega
        rw [h1, List.range'_succ]
      rw [this, List.map_cons]

end S3ImageNet

namespace S3ImageNet

/-! ### The claims -/

/-- C1: evaluation at the failing input.  Scenario A: shard 0 fails
discovery, shard 1 succeeds with 5 records.  Construction succeeds and
the failed shard contributes 0 samples (cumulative table `[0, 5]`,
length 5) — but the lookup part of the claim FAILS on the code: every
index in `[0, 5)` resolves to `file_idx = 0`, and `__getitem__` then
reads `self.arrow_files[0]`, which is the FAILED shard 0.  The skipped
shard was dropped from `cumulative_sizes`/`file_sizes` (train.py lines
140-142) but not from `arrow_files` (line 101), so the index computed
against the compacted table is misaligned with the key list: the lookup
dies on shard 0's corruption (after the generic retries) even though
shard 1 holds every sample. -/
theorem claim_C1_failed_shard_misalignment :
    discover_structure shardsA = .ok dsA ∧
    dsA.cumulative_sizes = [0, 5] ∧
    datasetLen dsA = 5 ∧
    ((List.range 5).all fun idx => findFileIdx dsA.cumulative_sizes idx == some 0) = true ∧
    dsA.arrow_files.getD 0 "" = "shard0" ∧
    getitem dsA storeA none 3 1 0 = (.error (.sample "corrupted"), [1, 2]) :=
  ⟨by rfl, by rfl, by rfl, by decide, by rfl, by rfl⟩

/-- C2: counterexample.  In scenario A one catalog entry fails
discovery: the cumulative table has 2 entries while the catalog
(`arrow_files`, the discovered `.arrow` keys) has 2 entries, so
"length equals the number of catalog entries plus one" (2 = 3) is
false. -/
theorem claim_C2_counterexample :
    discover_structure shardsA = .ok dsA ∧
    dsA.cumulative_sizes.length = 2 ∧
    dsA.arrow_files.length = 2 ∧
    ((dsA.cumulative_sizes.length == dsA.arrow_files.length + 1) = false) :=
  ⟨by rfl, by rfl, by rfl, by rfl⟩

/-- C2 (amended): after a successful construction the Cumulative Size
Table is monotonically non-decreasing, its entry 0 equals 0, its last
entry equals the dataset's total length (`__len__`), and its length
equals the number of successfully processed catalog entries
(`len(file_sizes)`) plus one — the claim's `len(catalog) + 1` holds only
when every shard succeeds. -/
theorem claim_C2_amended (shards : List Shard) (d : DatasetIndex)
    (h : discover_structure shards = .ok d) :
    List.Sorted (· ≤ ·) d.cumulative_sizes ∧
    d.cumulative_sizes.head? = some 0 ∧
    d.cumulative_sizes.getLastD 0 = datasetLen d ∧
    d.cumulative_sizes.length = d.file_sizes.length + 1 := by
  obtain ⟨-, hsorted, hhead, hlen, -⟩ := dataset_inv h
  exact ⟨hsorted, hhead, rfl, hlen⟩

/-- C2 witness: the amended claim applied to scenario A. -/
theorem claim_C2_witness :
    List.Sorted (· ≤ ·) dsA.cumulative_sizes ∧
    dsA.cumulative_sizes.head? = some 0 ∧
    dsA.cumulative_sizes.getLastD 0 = datasetLen dsA ∧
    dsA.cumulative_sizes.length = dsA.file_sizes.length + 1 :=
  claim_C2_amended shardsA dsA (by rfl)

/-- C3: evaluation at the failing input.  Scenario B: raw labels 10 and
20; the Class Vocabulary maps raw label 20 to dense index 1, but
`__getitem__` returns the raw stored label 20 (train.py line 212) — the
label is NEVER mapped through `class_to_idx`, which is built at line 157
and never consulted during lookup. -/
theorem claim_C3_raw_label_returned :
    discover_structure shardsB = .ok dsB ∧
    getitem dsB storeB none 3 1 1 = (.ok (8, 20), []) ∧
    class_to_idx dsB 20 = some 1 ∧
    (((20 : Int) == (1 : Int)) = false) :=
  ⟨by rfl, by rfl, by rfl, by rfl⟩

/-- C4: counterexample.  A record whose image fails to decode — and, in
the malformed variant, a batch whose column extraction fails — does NOT
surface immediately: with `max_retries = 3`, `retry_delay = 1` the outer
per-sample loop of `__getitem__` (train.py lines 173-222) catches the
`ValueError`, sleeps 1 second and then 2 seconds, and re-attempts; the
error surfaces only after the 3rd attempt, so the recorded backoff
delays are `[1, 2]`, not none. -/
theorem claim_C4_counterexample :
    getitem dsC storeC none 3 1 0 =
      (.error (.sample "Failed to decode image"), [1, 2]) ∧
    getitem dsC storeCmal none 3 1 0 =
      (.error (.sample "Invalid batch data structure"), [1, 2]) ∧
    ((getitem dsC storeC none 3 1 0).2.isEmpty = false) :=
  ⟨by rfl, by rfl, by rfl⟩

/-- C4 (amended): a malformed batch structure or an image decode failure
during a sample lookup raises a per-sample error that is fatal to that
lookup — but it is NOT exempt from retrying: `__getitem__`'s outer loop
catches it like any other exception and retries the whole attempt,
sleeping `retry_delay * n` after the n-th attempt, and the same error
surfaces to the caller only after the last of `max_retries` attempts. -/
theorem claim_C4_amended (d : DatasetIndex) (store : String → ShardStore)
    (transform : Option (Nat → Option Nat)) (maxR delay idx fi : Nat) (msg : String)
    (hloc : findFileIdx d.cumulative_sizes idx = some fi)
    (hbody : attemptBody d.arrow_files store transform fi
      (idx - d.cumulative_sizes.getD fi 0) = .error msg)
    (hmax : 1 ≤ maxR) :
    getitem d store transform maxR delay idx =
      (.error (.sample msg), (List.range' 1 (maxR - 1)).map fun n => delay * n) := by
  unfold getitem
  rw [hloc]
  dsimp only
  rw [hbody]
  have h := getitemLoop_error msg maxR delay maxR 0 (by omega) hmax
  simpa using h

/-- C4 witness: the amended claim applied to scenario C. -/
theorem claim_C4_witness :
    getitem dsC storeC none 3 1 0 =
      (.error (.sample "Failed to decode image"),
        (List.range' 1 2).map fun n => 1 * n) :=
  claim_C4_amended dsC storeC none 3 1 0 0 "Failed to decode image"
    (by rfl) (by rfl) (by omega)

/-- C5: contract of `get_object_with_retry`.  (i) The result depends only
on the outcomes of attempts `0..max_retries-1` (at most the configured
maximum number of attempts is made); (ii) if all those attempts fail, the
error is raised only then, after sleeping `retry_delay * n` between
attempt n and attempt n+1 for n = 1..max_retries-1; (iii) if the k-th
attempt (0-based, k < max_retries) succeeds after failures, the response
is returned normally with no error surfaced, after sleeps
`retry_delay * 1, ..., retry_delay * k`. -/
theorem claim_C5_retry_contract (maxR delay : Nat) (res res2 : Nat → Except Unit Nat) :
    ((∀ k, k < maxR → res k = res2 k) →
      get_object_with_retry res maxR delay = get_object_with_retry res2 maxR delay) ∧
    ((∀ k, k < maxR → res k = .error ()) →
      get_object_with_retry res maxR delay =
        (.error (), (List.range' 1 (maxR - 1)).map fun n => delay * n)) ∧
    (∀ k rsp, k < maxR → (∀ j, j < k → res j = .error ()) → res k = .ok rsp →
      get_object_with_retry res maxR delay =
        (.ok rsp, (List.range' 1 k).map fun n => delay * n)) := by
  refine ⟨?_, ?_, ?_⟩
  · intro h
    unfold get_object_with_retry
    exact getObjectRetryGo_congr res res2 maxR delay h maxR 0 (by omega)
  · intro h
    unfold get_object_with_retry
    have hgo := getObjectRetryGo_allFail res maxR delay h maxR 0 (by omega)
    simpa using hgo
  · intro k rsp hk hfail hok
    unfold get_object_with_retry
    have hgo := getObjectRetryGo_success res maxR delay rsp maxR 0 k (by omega)
      (Nat.zero_le k) hk (fun j _ hj => hfail j hj) hok
    simpa using hgo

/-- C5 witness: two failures then success on the 3rd attempt (max = 3)
returns the response with sleeps `[1, 2]`; three failures raise with the
same sleeps performed. -/
theorem claim_C5_witness :
    get_object_with_retry resTwoFailsThenOk 3 1 = (.ok 42, [1, 2]) ∧
    get_object_with_retry resAlwaysFails 3 1 = (.error (), [1, 2]) := by
  constructor
  · have h := (claim_C5_retry_contract 3 1 resTwoFailsThenOk resTwoFailsThenOk).2.2 2 42
      (by omega)
      (fun j hj => by
        match j, hj with
        | 0, _ => rfl
        | 1, _ => rfl)
      (by rfl)
    exact h.trans (by rfl)
  · have h := (claim_C5_retry_contract 3 1 resAlwaysFails resAlwaysFails).2.1
      (fun k _ => rfl)
    exact h.trans (by rfl)

/-- C6: locator correctness.  For every constructed dataset and every
global index k below the total length, the locator resolves k to exactly
one shard position i — the sole one with
`cumulative[i] ≤ k < cumulative[i+1]` — and the local offset computed at
train.py line 171 is `k - cumulative[i]` (conjunct
`cumulative_sizes.getD i 0 = a`).  Resolution is a pure function of the
immutable cumulative table, so repeated resolutions of the same k are
definitionally equal. -/
theorem claim_C6_locator_resolution (shards : List Shard) (d : DatasetIndex)
    (h : discover_structure shards = .ok d) (k : Nat) (hk : k < datasetLen d) :
    ∃ i a b, findFileIdx d.cumulative_sizes k = some i ∧
      d.cumulative_sizes.get? i = some a ∧
      d.cumulative_sizes.get? (i + 1) = some b ∧
      a ≤ k ∧ k < b ∧
      d.cumulative_sizes.getD i 0 = a ∧
      ∀ i' a' b', d.cumulative_sizes.get? i' = some a' →
        d.cumulative_sizes.get? (i' + 1) = some b' → a' ≤ k → k < b' → i' = i := by
  obtain ⟨-, hsorted, hhead, -, -⟩ := dataset_inv h
  have hk' : k < d.cumulative_sizes.getLastD 0 := hk
  obtain ⟨i, a, b, h1, h2, h3, h4, h5, h6⟩ := findFileIdx_spec hhead hsorted hk'
  refine ⟨i, a, b, h1, h2, h3, h4, h5, ?_, h6⟩
  rw [List.getD_eq_getElem?_getD, ← List.get?_eq_getElem?, h2]
  rfl

/-- C6 witness: in scenario A, global index 3 resolves to shard position
0 of the compacted table. -/
theorem claim_C6_witness : findFileIdx dsA.cumulative_sizes 3 = some 0 := by
  obtain ⟨i, a, b, h1, -, -, -, -, -, h7⟩ :=
    claim_C6_locator_resolution shardsA dsA (by rfl) 3 (by decide)
  have hi : i = 0 := (h7 0 0 5 (by rfl) (by rfl) (by omega) (by omega)).symm ▸ rfl
  rw [hi] at h1
  exact h1

end S3ImageNet

namespace S3ImageNet

/-- C7: the Class Vocabulary is a bijection from the set of raw label
values observed in the first batch of every successfully processed shard
(the elements of `(discoverLoop shards).all_labels`) onto the dense
indices `0..C-1` where `C = len(vocab)`, with no gaps or duplicates, and
a smaller raw label always receives a smaller index: membership in the
vocabulary coincides with the observed label set, the vocabulary list is
strictly increasing, every observed label is assigned an index below C,
the assignment is injective and surjective onto `0..C-1`, and it is
strictly monotone in the raw label value. -/
theorem claim_C7_vocab_bijection (shards : List Shard) (d : DatasetIndex)
    (h : discover_structure shards = .ok d) :
    (∀ l, l ∈ d.vocab ↔ l ∈ (discoverLoop shards).all_labels) ∧
    List.Sorted (· < ·) d.vocab ∧
    (∀ l, l ∈ (discoverLoop shards).all_labels →
      class_to_idx d l = some (d.vocab.indexOf l) ∧ d.vocab.indexOf l < d.vocab.length) ∧
    (∀ l l', l ∈ d.vocab → l' ∈ d.vocab →
      d.vocab.indexOf l = d.vocab.indexOf l' → l = l') ∧
    (∀ i, i < d.vocab.length → ∃ l, l ∈ d.vocab ∧ d.vocab.indexOf l = i) ∧
    (∀ l l', l ∈ d.vocab → l' ∈ d.vocab → l < l' →
      d.vocab.indexOf l < d.vocab.indexOf l') := by
  obtain ⟨hd, -, -⟩ := discover_structure_ok h
  have hvocab : d.vocab = List.insertionSort (· ≤ ·) (discoverLoop shards).all_labels := by
    rw [hd]
  obtain ⟨-, -, -, -, hnodup, -, -⟩ := discoverLoop_inv shards
  have hperm : List.Perm (List.insertionSort (· ≤ ·) (discoverLoop shards).all_labels)
      (discoverLoop shards).all_labels := List.perm_insertionSort _ _
  have hmem : ∀ l, l ∈ d.vocab ↔ l ∈ (discoverLoop shards).all_labels := by
    intro l
    rw [hvocab]
    exact hperm.mem_iff
  have hvnodup : d.vocab.Nodup := by
    rw [hvocab]
    exact hperm.nodup_iff.mpr hnodup
  have hsortedLe : List.Sorted (· ≤ ·) d.vocab := by
    rw [hvocab]
    exact List.sorted_insertionSort _ _
  have hsortedLt : List.Sorted (· < ·) d.vocab := by
    refine List.Pairwise.imp₂ (fun a b hab hne => lt_of_le_of_ne hab hne) hsortedLe hvnodup
  refine ⟨hmem, hsortedLt, ?_, ?_, ?_, ?_⟩
  · intro l hl
    have hlv : l ∈ d.vocab := (hmem l).mpr hl
    refine ⟨?_, List.indexOf_lt_length.mpr hlv⟩
    unfold class_to_idx
    rw [if_pos hlv]
  · intro l l' hl hl' hidx
    exact (List.indexOf_inj hl hl').mp hidx
  · intro i hi
    exact ⟨d.vocab.get ⟨i, hi⟩, List.get_mem _ _ _, List.get_indexOf hvnodup ⟨i, hi⟩⟩
  · intro l l' hl hl' hll
    have hi := List.indexOf_lt_length.mpr hl
    have hj := List.indexOf_lt_length.mpr hl'
    by_contra hcon
    push_neg at hcon
    rcases Nat.eq_or_lt_of_le hcon with heq | hlt2
    · exact absurd ((List.indexOf_inj hl' hl).mp heq) (ne_of_gt hll)
    · have hg := hsortedLt.rel_get_of_lt
        (a := ⟨d.vocab.indexOf l', hj⟩) (b := ⟨d.vocab.indexOf l, hi⟩)
        (Fin.mk_lt_mk.mpr hlt2)
      rw [List.indexOf_get hj, List.indexOf_get hi] at hg
      exact absurd hg (not_lt.mpr (le_of_lt hll))

/-- C7 witness: scenario B observes raw labels 20 then 10; the vocabulary
sorts them so 10 gets index 0 and 20 gets index 1. -/
theorem claim_C7_witness :
    ((10 : Int) ∈ dsB.vocab ↔ (10 : Int) ∈ (discoverLoop shardsB).all_labels) ∧
    class_to_idx dsB 10 = some (dsB.vocab.indexOf 10) ∧
    dsB.vocab.indexOf 10 < dsB.vocab.length ∧
    dsB.vocab.indexOf 10 < dsB.vocab.indexOf 20 := by
  obtain ⟨hmem, -, hidx, -, -, hmono⟩ := claim_C7_vocab_bijection shardsB dsB (by rfl)
  obtain ⟨h1, h2⟩ := hidx 10 (by decide)
  exact ⟨hmem 10, h1, h2, hmono 10 20 (by decide) (by decide) (by decide)⟩

/-- C8: `discover_structure` raises after processing all shards exactly
when no labels were observed in any shard's first batch (`all_labels`
empty — checked first, train.py line 150) or when no shard was
successfully processed (`file_sizes` empty, line 153); otherwise it
completes and builds the Class Vocabulary by sorting the observed label
set. -/
theorem claim_C8_empty_dataset (shards : List Shard) :
    ((∃ e, discover_structure shards = .error e) ↔
      ((discoverLoop shards).all_labels = [] ∨ (discoverLoop shards).file_sizes = [])) ∧
    (∀ d, discover_structure shards = .ok d →
      d.vocab = List.insertionSort (· ≤ ·) (discoverLoop shards).all_labels) := by
  constructor
  · constructor
    · rintro ⟨e, he⟩
      unfold discover_structure at he
      simp only at he
      split_ifs at he with h1 h2
      · exact Or.inl h1
      · exact Or.inr h2
    · intro h
      unfold discover_structure
      simp only
      rcases h with h | h
      · rw [if_pos h]
        exact ⟨.noLabels, rfl⟩
      · by_cases h1 : (discoverLoop shards).all_labels = []
        · rw [if_pos h1]
          exact ⟨.noLabels, rfl⟩
        · rw [if_neg h1, if_pos h]
          exact ⟨.noFiles, rfl⟩
  · intro d hd
    obtain ⟨h1, -, -⟩ := discover_structure_ok hd
    rw [h1]

/-- C8 witness: a run where the only shard fails discovery satisfies the
error condition via the iff; scenario B's successful run builds the
sorted vocabulary. -/
theorem claim_C8_witness :
    ((discoverLoop [⟨"w0", ShardDiscovery.failed⟩]).all_labels = [] ∨
      (discoverLoop [⟨"w0", ShardDiscovery.failed⟩]).file_sizes = []) ∧
    dsB.vocab = List.insertionSort (· ≤ ·) (discoverLoop shardsB).all_labels := by
  refine ⟨(claim_C8_empty_dataset [⟨"w0", .failed⟩]).1.mp ⟨.noLabels, by rfl⟩, ?_⟩
  exact (claim_C8_empty_dataset shardsB).2 dsB (by rfl)

/-- C9: for every index at or beyond `__len__`, the locator generator of
`__getitem__` is exhausted (every cumulative entry is at most the last
entry, which is at most `idx`), so the lookup raises `StopIteration`
before any storage access: the result is the same constant for EVERY
store, transform and retry configuration, with no retry sleep performed
and no sample returned. -/
theorem claim_C9_out_of_range (shards : List Shard) (d : DatasetIndex)
    (h : discover_structure shards = .ok d) (idx : Nat) (hidx : datasetLen d ≤ idx)
    (store : String → ShardStore) (transform : Option (Nat → Option Nat))
    (maxR delay : Nat) :
    getitem d store transform maxR delay idx = (.error .stopIteration, []) := by
  obtain ⟨-, -, -, -, hbound⟩ := dataset_inv h
  unfold getitem
  rw [findFileIdx_none_of_ge hbound hidx]

/-- C9 witness: scenario A (length 5), index 5 raises `StopIteration`. -/
theorem claim_C9_witness :
    getitem dsA storeA none 3 1 5 = (.error .stopIteration, []) :=
  claim_C9_out_of_range shardsA dsA (by rfl) 5 (by decide) storeA none 3 1

end S3ImageNet

namespace UploadHF

/-- C10: evaluation at the failing input.  For a dict checkpoint that
contains NEITHER `epoch` nor `best_acc` (e.g. a bare state-dict
checkpoint, which IS a dict), the `if not isinstance / elif 'epoch' not
in / elif 'best_acc' not in` chain of upload_to_hf.py lines 38-47 takes
only the `epoch` branch and skips the `best_acc` branch, so the returned
checkpoint has no `best_acc` key and `upload_to_huggingface`'s read
`checkpoint['best_acc']` (line 65) raises `KeyError` — refuting the
claim that both keys are always present.  When `epoch` IS present and
only `best_acc` is missing, the default is applied as the claim says. -/
theorem claim_C10_best_acc_missing :
    load_model_checkpoint (.dict [("model_state_dict", .blob 7)]) =
      .dict [("model_state_dict", .blob 7), ("epoch", .num 0)] ∧
    uploadReads (load_model_checkpoint (.dict [("model_state_dict", .blob 7)])) =
      (none, some (.num 0)) ∧
    uploadReads (load_model_checkpoint
        (.dict [("model_state_dict", .blob 7), ("epoch", .num 3)])) =
      (some (.num 0), some (.num 3)) :=
  ⟨by rfl, by rfl, by rfl⟩

end UploadHF
